import Mathlib

/-!
Verification of the ecowitt-mcp core against its specification.

The JavaScript sources are shallowly embedded: numeric API codes become
`Int`, JS strings become Lean `String` (character-level operations work on
`String.data`), thrown exceptions become `Except` values, and the HTTP /
upstream collaborators become explicit function parameters or inductive
outcome values.  Each definition mirrors one function of the repository;
file and line references are given in the doc comments.
-/

namespace EcowittMCP

/-! ## Error taxonomy — src/ecowitt/errors.js (EcowittErrorClassifier) -/

/-- `EcowittErrorClassifier.ErrorTypes` / `EcowittApiError.ErrorTypes`:
the fixed kind strings used by both error modules. -/
def ErrorTypes_SERVER_BUSY : String := "server_busy_error"

def ErrorTypes_AUTHENTICATION : String := "authentication_error"

def ErrorTypes_PARAMETER : String := "parameter_error"

def ErrorTypes_DEVICE : String := "device_error"

def ErrorTypes_CLIENT : String := "client_error"

def ErrorTypes_SERVER : String := "server_error"

def ErrorTypes_UNKNOWN : String := "unknown_error"

/-- The entries of `ErrorCodeMap` (identical table in
src/ecowitt/errors.js and src/src/ecowitt/errors.js), in source order. -/
def ErrorCodeMapEntries : List (Int × String) := [
  (-1, ErrorTypes_SERVER_BUSY),
  (40000, ErrorTypes_PARAMETER),
  (40010, ErrorTypes_AUTHENTICATION),
  (40011, ErrorTypes_AUTHENTICATION),
  (40012, ErrorTypes_DEVICE),
  (40013, ErrorTypes_PARAMETER),
  (40014, ErrorTypes_PARAMETER),
  (40015, ErrorTypes_PARAMETER),
  (40016, ErrorTypes_PARAMETER),
  (40017, ErrorTypes_PARAMETER),
  (40018, ErrorTypes_PARAMETER),
  (40019, ErrorTypes_DEVICE),
  (40020, ErrorTypes_PARAMETER),
  (40021, ErrorTypes_PARAMETER)]

/-- `ErrorCodeMap[code]`: the JS object lookup; a miss yields
`undefined`, modelled by `none`. -/
def ErrorCodeMap (code : Int) : Option String :=
  (ErrorCodeMapEntries.find? fun e => e.1 == code).map Prod.snd

/-- The entries of `ErrorMessages` (same table in both error modules):
canonical message per known code, in source order. -/
def ErrorMessagesEntries : List (Int × String) := [
  (-1, "System is busy."),
  (40000, "Illegal parameter"),
  (40010, "Illegal Application_Key Parameter"),
  (40011, "Illegal Api_Key Parameter"),
  (40012, "Illegal MAC/IMEI Parameter"),
  (40013, "Illegal start_date Parameter"),
  (40014, "Illegal end_date Parameter"),
  (40015, "Illegal cycle_type Parameter"),
  (40016, "Illegal call_back Parameter"),
  (40017, "Missing Application_Key Parameter"),
  (40018, "Missing Api_Key Parameter"),
  (40019, "Missing MAC Parameter"),
  (40020, "Missing start_date Parameter"),
  (40021, "Missing end_date Parameter")]

/-- `ErrorMessages[code]` as a JS object lookup. -/
def ErrorMessages (code : Int) : Option String :=
  (ErrorMessagesEntries.find? fun e => e.1 == code).map Prod.snd

/-- The classified error object returned by
`EcowittErrorClassifier.classifyError`: `{ code, message, type }`. -/
structure ClassifiedError where
  code : Int
  message : String
  etype : String
  deriving DecidableEq

/-- `EcowittErrorClassifier.classifyError(code, message)`
(src/ecowitt/errors.js lines 65–84): table lookup first, then the numeric
range fallback 4xx → client, 5xx → server, otherwise unknown. -/
def classifyError (code : Int) (message : String) : ClassifiedError :=
  let t : String :=
    match ErrorCodeMap code with
    | some t => t
    | none =>
      if 400 ≤ code ∧ code < 500 then ErrorTypes_CLIENT
      else if 500 ≤ code ∧ code < 600 then ErrorTypes_SERVER
      else ErrorTypes_UNKNOWN
  { code := code, message := message, etype := t }

/-- `EcowittErrorClassifier.isSystemBusyError(code)`. -/
def isSystemBusyError (code : Int) : Bool :=
  decide (code = -1)

/-- `EcowittErrorClassifier.isRetryableError(code)`
(src/ecowitt/errors.js lines 131–135). -/
def isRetryableError (code : Int) : Bool :=
  isSystemBusyError code || (decide (500 ≤ code) && decide (code < 600)) ||
    decide (code = 429)

/-! ## `EcowittApiError` — src/src/ecowitt/errors.js -/

/-- The fields of an `EcowittApiError` instance that the claims observe:
`apiResponseCode`, `apiResponseMessage`, the resolved `message`
(canonical table message, else the API message) and the mapped `type`. -/
structure EcowittApiError where
  apiResponseCode : Int
  apiResponseMessage : String
  message : String
  etype : String
  deriving DecidableEq

/-- `new EcowittApiError(code, msg)` (src/src/ecowitt/errors.js lines
70–90): default message from `ErrorMessages`, mapped type from
`ErrorCodeMap` with the same 4xx/5xx/unknown fallback. -/
def mkEcowittApiError (apiResponseCode : Int)
    (apiResponseMessage : String := "An unknown Ecowitt API error occurred.") :
    EcowittApiError :=
  let defaultMessage :=
    (ErrorMessages apiResponseCode).getD apiResponseMessage
  let mappedType : String :=
    match ErrorCodeMap apiResponseCode with
    | some t => t
    | none =>
      if 400 ≤ apiResponseCode ∧ apiResponseCode < 500 then ErrorTypes_CLIENT
      else if 500 ≤ apiResponseCode ∧ apiResponseCode < 600 then ErrorTypes_SERVER
      else ErrorTypes_UNKNOWN
  { apiResponseCode := apiResponseCode
    apiResponseMessage := apiResponseMessage
    message := defaultMessage
    etype := mappedType }

/-- `EcowittApiError.isRetryable()` (src/src/ecowitt/errors.js lines
96–102). -/
def EcowittApiError.isRetryable (e : EcowittApiError) : Bool :=
  decide (e.apiResponseCode = -1) ||
    (decide (500 ≤ e.apiResponseCode) && decide (e.apiResponseCode < 600)) ||
    decide (e.apiResponseCode = 429)

/-! ## JS value model

The handlers receive arbitrary JS values.  The claims only distinguish
`undefined`, `null`, "some non-string value" and actual strings, so the
embedding collapses JS dynamics into this sum. -/

/-- A JS argument as observed by the validators. -/
inductive JsValue where
  | undef
  | nullV
  | nonString
  | str (s : String)
  deriving DecidableEq

/-- The ASCII portion of the JS `\s` character class (space, tab, LF,
VT, FF, CR), which is all the sources ever feed it. -/
def isJsWhitespace (c : Char) : Bool :=
  c.toNat = 32 || (9 ≤ c.toNat && c.toNat ≤ 13)

/-- The `MAC_SEPARATORS_REGEX` class `[:\-\s]` of src/src/utils/mac.js. -/
def isMacSeparator (c : Char) : Bool :=
  c.toNat = 58 || c.toNat = 45 || isJsWhitespace c

/-- JS `String.prototype.toUpperCase` restricted to ASCII (the only
characters these utilities ever see). -/
def jsToUpperChar (c : Char) : Char :=
  if 97 ≤ c.toNat && c.toNat ≤ 122 then Char.ofNat (c.toNat - 32) else c

/-- JS `String.prototype.toLowerCase` restricted to ASCII. -/
def jsToLowerChar (c : Char) : Char :=
  if 65 ≤ c.toNat && c.toNat ≤ 90 then Char.ofNat (c.toNat + 32) else c

/-- `[0-9A-F]` — one character of `MAC_HEX_VALIDATION_REGEX`. -/
def isUpperHexDigit (c : Char) : Bool :=
  (48 ≤ c.toNat && c.toNat ≤ 57) || (65 ≤ c.toNat && c.toNat ≤ 70)

/-- `[0-9A-Fa-f]` — one character of
`MAC_HEX_VALIDATION_CASE_INSENSITIVE_REGEX`. -/
def isHexDigitCI (c : Char) : Bool :=
  isUpperHexDigit c || (97 ≤ c.toNat && c.toNat ≤ 102)

/-! ## Identifier normalizer — src/src/utils/mac.js -/

/-- `cleanMacAddress(mac)` on the character list:
`mac.replace(MAC_SEPARATORS_REGEX, "").toUpperCase()`. -/
def cleanList (l : List Char) : List Char :=
  (l.filter fun c => !(isMacSeparator c)).map jsToUpperChar

/-- `cleanMacAddress(mac)` (src/src/utils/mac.js lines 17–19). -/
def cleanMacAddress (s : String) : String :=
  ⟨cleanList s.data⟩

/-- `/^[0-9A-F]{12}$/.test s`. -/
def matchesHex12Upper (s : String) : Bool :=
  s.data.length == 12 && s.data.all isUpperHexDigit

/-- `/^[0-9A-Fa-f]{12}$/.test s`. -/
def matchesHex12CI (s : String) : Bool :=
  s.data.length == 12 && s.data.all isHexDigitCI

/-- `/[:\-\s]{2,}/.test mac`: some two consecutive characters are both
separators. -/
def hasConsecutiveSeparators : List Char → Bool
  | c1 :: c2 :: rest =>
    (isMacSeparator c1 && isMacSeparator c2) ||
      hasConsecutiveSeparators (c2 :: rest)
  | _ => false

/-- `isValidMacAddress(mac)` (src/src/utils/mac.js lines 28–40):
falsy / non-string → false; consecutive separators → false; else the
separator-stripped uppercased form must be 12 hex characters. -/
def isValidMacAddress (mac : JsValue) : Bool :=
  match mac with
  | .str s =>
    if s.data.isEmpty then false
    else if hasConsecutiveSeparators s.data then false
    else matchesHex12CI (cleanMacAddress s)
  | _ => false

/-- `validateMacAddress(mac)` (src/src/utils/mac.js lines 49–58), the
throwing validator, as `Except` with the thrown message. -/
def validateMacAddress (mac : JsValue) : Except String Unit :=
  match mac with
  | .str s =>
    if s.data.isEmpty then
      .error "MAC address must be a non-empty string"
    else if matchesHex12Upper (cleanMacAddress s) then .ok ()
    else .error "Invalid MAC address format. Expected 12 hexadecimal characters."
  | _ => .error "MAC address must be a non-empty string"

/-- `cleanMac.replace(/(.{2})/g, "$1:")`: a `:` after every full pair of
characters; a trailing lone character is left untouched. -/
def pairColon : List Char → List Char
  | a :: b :: rest => a :: b :: ':' :: pairColon rest
  | l => l

/-- `formatMacAddress(mac)` (src/src/utils/mac.js lines 67–71):
validate, clean, insert a colon after every pair, drop the trailing
colon (`.slice(0, -1)`). -/
def formatMacAddress (mac : JsValue) : Except String String :=
  match validateMacAddress mac with
  | .error e => .error e
  | .ok () =>
    match mac with
    | .str s => .ok ⟨(pairColon (cleanMacAddress s).data).dropLast⟩
    | _ => .error "MAC address must be a non-empty string"

/-- `compactMacAddress(mac)` (src/src/utils/mac.js lines 80–83). -/
def compactMacAddress (mac : JsValue) : Except String String :=
  match validateMacAddress mac with
  | .error e => .error e
  | .ok () =>
    match mac with
    | .str s => .ok (cleanMacAddress s)
    | _ => .error "MAC address must be a non-empty string"

/-! ## Spec-side characterization of a valid address

Modelled from the spec's words, for comparison with `isValidMacAddress`
(claims about "12 hexadecimal characters optionally grouped in pairs
with one consistent separator, not a mix"). -/

/-- Pairs of hex characters joined by the single separator `sep`:
`hh`, `hh sep hh`, `hh sep hh sep hh`, … -/
def groupedPairs (sep : Char) : List Char → Bool
  | [a, b] => isHexDigitCI a && isHexDigitCI b
  | a :: b :: s :: rest =>
    isHexDigitCI a && isHexDigitCI b && (s == sep) && groupedPairs sep rest
  | _ => false

/-- The spec's valid set: exactly 12 hex characters, either compact or
grouped in six pairs with one consistent separator drawn from colon,
hyphen, space. -/
def specValidMac (s : String) : Bool :=
  (s.data.length == 12 && s.data.all isHexDigitCI) ||
    (s.data.length == 17 &&
      ([':', '-', ' '].any fun sep => groupedPairs sep s.data))

/-! ## Custom error hierarchy — src/src/utils/errors.js and
src/src/ecowitt/errors.js (`DeviceNotFoundError`) -/

/-- A JS error `code` field: the handler layer uses string codes, the
API error uses the numeric upstream code. -/
inductive ECode where
  | str (s : String)
  | num (n : Int)
  deriving DecidableEq

/-- Observable fields of a `CustomError` (src/src/utils/errors.js lines
6–24) and its subclasses; `identifier` is the extra field of
`DeviceNotFoundError`. -/
structure CustomErrorV where
  name : String
  message : String
  code : ECode
  etype : String
  identifier : Option String := none
  deriving DecidableEq

/-- `new CustomError(message, code, type)`. -/
def mkCustomError (message : String) (code : String) (etype : String) :
    CustomErrorV :=
  { name := "CustomError", message := message, code := .str code, etype := etype }

/-- `new DeviceNotFoundError(identifier)` (src/src/ecowitt/errors.js
lines 108–118). -/
def mkDeviceNotFoundError (identifier : String) : CustomErrorV :=
  { name := "DeviceNotFoundError"
    message := "Device \"" ++ identifier ++ "\" not found."
    code := .str "DEVICE_NOT_FOUND"
    etype := "device_error"
    identifier := some identifier }

/-- `new HandlerError(message)` (src/src/utils/errors.js lines 29–40). -/
def mkHandlerError (message : String) : CustomErrorV :=
  { name := "HandlerError", message := message, code := .str "HANDLER_ERROR"
    etype := "handler_error" }

/-- A thrown JS exception as seen by a handler's `catch`: either an
`instanceof CustomError` or some other raw error with a message. -/
inductive JsErr where
  | custom (e : CustomErrorV)
  | raw (message : String)
  deriving DecidableEq

/-! ## validateRequired — src/src/utils/validation.js lines 14–24 -/

/-- JS `String.prototype.trim` (ASCII whitespace model). -/
def jsTrim (s : String) : String :=
  ⟨((s.data.dropWhile fun c => isJsWhitespace c).reverse.dropWhile
      fun c => isJsWhitespace c).reverse⟩

/-- JS `String.prototype.toLowerCase` (ASCII model). -/
def jsToLower (s : String) : String :=
  ⟨s.data.map jsToLowerChar⟩

/-- `validateRequired(name, value)` with the default `"parameter"`
context, as `Except` with the thrown message. -/
def validateRequired (name : String) (value : JsValue) : Except String Unit :=
  match value with
  | .undef => .error ("Missing required parameter: " ++ name)
  | .nullV => .error ("Missing required parameter: " ++ name)
  | .nonString => .error ("The parameter '" ++ name ++ "' must be a string.")
  | .str s =>
    if jsTrim s = "" then .error ("The parameter '" ++ name ++ "' cannot be empty.")
    else .ok ()

/-- The string a validated argument carries (validation only succeeds on
`.str`). -/
def JsValue.asString : JsValue → String
  | .str s => s
  | _ => ""

/-! ## Device handlers — src/src/server/handlers/device.js -/

/-- `client.getDeviceInfo` result: JS returns either a nullish value or
an object, observed through `Object.keys`. -/
inductive DeviceData where
  | nullish
  | obj (keys : List String)
  deriving DecidableEq

/-- The `catch (error)` block shared by every handler: rethrow
`instanceof CustomError`, wrap anything else in a `HandlerError` whose
message names the handler and carries the original message. -/
def wrapHandler (fname : String) (inner : Except JsErr DeviceData) :
    Except JsErr DeviceData :=
  match inner with
  | .ok d => .ok d
  | .error (.custom c) => .error (.custom c)
  | .error (.raw m) =>
    .error (.custom (mkHandlerError
      ("An unexpected error occurred in " ++ fname ++ ": " ++ m)))

/-- `DeviceHandlers.getDeviceByMac(macAddress)`
(src/src/server/handlers/device.js lines 45–64).  The upstream client is
the function parameter `client` (`this.client.getDeviceInfo`). -/
def getDeviceByMac (client : String → Except JsErr DeviceData)
    (macAddress : JsValue) : Except JsErr DeviceData :=
  match validateRequired "MAC address" macAddress with
  | .error m =>
    .error (.custom (mkCustomError m "INVALID_PARAMETER" "parameter_error"))
  | .ok () =>
    wrapHandler "getDeviceByMac"
      (match client macAddress.asString with
       | .error e => .error e
       | .ok deviceData =>
         match deviceData with
         | .nullish => .error (.custom (mkDeviceNotFoundError macAddress.asString))
         | .obj keys =>
           if keys.length = 0 then
             .error (.custom (mkDeviceNotFoundError macAddress.asString))
           else .ok (.obj keys))

/-- The identifiers `getDeviceByMac` passes to
`client.getDeviceInfo`: none when validation fails, else exactly the
supplied address. -/
def getDeviceByMacCalls (macAddress : JsValue) : List String :=
  match validateRequired "MAC address" macAddress with
  | .error _ => []
  | .ok () => [macAddress.asString]

/-- A transformed device record as consumed by `handleDeviceList`
(the fields the handler reads; `name`/`mac` are strings on this path). -/
structure DeviceRec where
  name : String
  mac : String
  dtype : Option String := none
  stationType : Option String := none
  dateZoneId : Option String := none
  longitude : Option String := none
  latitude : Option String := none
  deriving DecidableEq

/-- The MCP resource record `handleDeviceList` produces. -/
structure ResourceR where
  uri : String
  name : String
  mac : String
  dtype : Option String
  stationType : Option String
  dateZoneId : Option String
  longitude : Option String
  latitude : Option String
  deriving DecidableEq

/-- `mac.replace(/:/g, "")`. -/
def removeColons (s : String) : String :=
  ⟨s.data.filter fun c => !(c == ':')⟩

/-- `DeviceHandlers.handleDeviceList()` mapping step
(src/src/server/handlers/device.js lines 25–37), applied to the device
list the client returned. -/
def handleDeviceList (devices : List DeviceRec) : List ResourceR :=
  devices.map fun d =>
    { uri := "ecowitt://device/" ++ removeColons d.mac
      name := d.name
      mac := d.mac
      dtype := d.dtype
      stationType := d.stationType
      dateZoneId := d.dateZoneId
      longitude := d.longitude
      latitude := d.latitude }

/-- `DeviceHandlers.getDeviceByName(deviceName)`
(src/src/server/handlers/device.js lines 128–152).  `listOutcome` is the
awaited result of `this.client.listDevices()` feeding
`handleDeviceList`; `client` is `this.client.getDeviceInfo` for the
delegated `getDeviceByMac`. -/
def getDeviceByName (listOutcome : Except JsErr (List DeviceRec))
    (client : String → Except JsErr DeviceData)
    (deviceName : JsValue) : Except JsErr DeviceData :=
  match validateRequired "Device name" deviceName with
  | .error m =>
    .error (.custom (mkCustomError m "INVALID_PARAMETER" "parameter_error"))
  | .ok () =>
    wrapHandler "getDeviceByName"
      (match listOutcome with
       | .error e => .error e
       | .ok devices =>
         let resources := handleDeviceList devices
         let normalizedName := jsTrim (jsToLower deviceName.asString)
         match resources.find? fun r => jsToLower r.name == normalizedName with
         | none => .error (.custom (mkDeviceNotFoundError deviceName.asString))
         | some resource => getDeviceByMac client (.str resource.mac))

/-- The identifiers `getDeviceByName` passes to `client.getDeviceInfo`
through the delegated `getDeviceByMac`. -/
def getDeviceByNameCalls (listOutcome : Except JsErr (List DeviceRec))
    (deviceName : JsValue) : List String :=
  match validateRequired "Device name" deviceName with
  | .error _ => []
  | .ok () =>
    match listOutcome with
    | .error _ => []
    | .ok devices =>
      match (handleDeviceList devices).find?
          (fun r => jsToLower r.name == jsTrim (jsToLower deviceName.asString)) with
      | none => []
      | some resource => getDeviceByMacCalls (.str resource.mac)

/-! ## Upstream request pipeline — `_makeRequest` in both client
variants -/

/-- The upstream JSON envelope `{ code, msg, data, time? }`. -/
structure Envelope (α : Type) where
  code : Int
  msg : String
  data : α
  time : Option Int := none
  deriving DecidableEq

/-- The outcome of the raced `fetch` call: aborted by the timeout, a
transport failure, or an HTTP response whose body either parses to an
envelope or fails JSON parsing (with the parse error message). -/
inductive FetchResult (α : Type) where
  | abortError
  | networkError (message : String)
  | response (status : Int) (statusText : String)
      (body : Except String (Envelope α))

/-- `Response.ok` per the fetch standard: status in [200, 300). -/
def httpOk (status : Int) : Bool :=
  decide (200 ≤ status) && decide (status < 300)

/-- The `{ code, message, type }` error object of the result-envelope
client variant. -/
structure ErrObjA where
  code : ECode
  message : String
  etype : String
  deriving DecidableEq

/-- `{ success: true, data, timestamp }` / `{ success: false, error }`
returned by the result-envelope client variant. -/
inductive ResultA (α : Type) where
  | success (data : α) (timestamp : Option Int)
  | failure (error : ErrObjA)
  deriving DecidableEq

/-- `EcowittClient._makeRequest` of the result-envelope variant
(src/ecowitt/client.js lines 94–183): parse the body first, then check
`response.ok` (producing the literal kind "http_error"), then classify a
non-zero envelope code via the taxonomy. -/
def makeRequestA {α : Type} (fr : FetchResult α) : ResultA α :=
  match fr with
  | .abortError =>
    .failure { code := .str "TIMEOUT", message := "Request timeout"
               etype := "timeout_error" }
  | .networkError m =>
    .failure { code := .str "NETWORK_ERROR", message := m
               etype := "network_error" }
  | .response status statusText body =>
    match body with
    | .error pm =>
      .failure { code := .str "PARSE_ERROR", message := pm
                 etype := "parse_error" }
    | .ok data =>
      if !(httpOk status) then
        .failure { code := .num status
                   message := "HTTP " ++ toString status ++ ": " ++ statusText
                   etype := "http_error" }
      else if data.code ≠ 0 then
        .failure { code := .num data.code, message := data.msg
                   etype := (classifyError data.code data.msg).etype }
      else
        .success data.data data.time

/-- An exception thrown by the exception-based client variant. -/
inductive ThrownB where
  | api (e : EcowittApiError)
  | customE (e : CustomErrorV)
  deriving DecidableEq

/-- `EcowittClient._makeRequest` of the exception-based variant
(src/src/ecowitt/client.js, concatenated file lines 336–400): check
`response.ok` first and throw a taxonomy-classified `EcowittApiError`
with the HTTP status as code, then parse, then check the envelope
code. -/
def makeRequestB {α : Type} (fr : FetchResult α) : Except ThrownB α :=
  match fr with
  | .abortError =>
    .error (.customE (mkCustomError "Request timed out." "TIMEOUT_ERROR"
      "timeout_error"))
  | .networkError m =>
    .error (.customE (mkCustomError ("Network error: " ++ m) "NETWORK_ERROR"
      "network_error"))
  | .response status statusText body =>
    if !(httpOk status) then
      .error (.api (mkEcowittApiError status ("HTTP Error: " ++ statusText)))
    else
      match body with
      | .error pm =>
        .error (.customE
          { name := "DataParsingError"
            message := "Failed to parse API response as JSON: " ++ pm
            code := .str "DATA_PARSING_ERROR"
            etype := "data_parsing_error" })
      | .ok data =>
        if data.code ≠ 0 then .error (.api (mkEcowittApiError data.code data.msg))
        else .ok data.data

/-! ## Device summary transform — `_transformDevice` / `listDevices`
(identical in both client variants; src/ecowitt/client.js lines 422–452
of the concatenated file) -/

/-- A raw upstream sensor record; each field may be absent
(JS `undefined`). -/
structure RawIotDevice (α : Type) where
  name : Option α := none
  default_title : Option α := none
  device_id : Option α := none
  version : Option α := none
  createtime : Option α := none
  deriving DecidableEq

/-- A raw upstream device record (`type` is spelled `dtype`). -/
structure RawDevice (α : Type) where
  id : Option α := none
  name : Option α := none
  mac : Option α := none
  imei : Option α := none
  dtype : Option α := none
  date_zone_id : Option α := none
  createtime : Option α := none
  longitude : Option α := none
  latitude : Option α := none
  stationtype : Option α := none
  iotdevice_list : Option (List (RawIotDevice α)) := none
  deriving DecidableEq

/-- The transformed nested sensor record. -/
structure IotDeviceT (α : Type) where
  name : Option α
  defaultTitle : Option α
  deviceId : Option α
  version : Option α
  createTime : Option α
  deriving DecidableEq

/-- The transformed device record. -/
structure DeviceT (α : Type) where
  id : Option α
  name : Option α
  mac : Option α
  imei : Option α
  dtype : Option α
  dateZoneId : Option α
  createTime : Option α
  longitude : Option α
  latitude : Option α
  stationType : Option α
  iotDevices : List (IotDeviceT α)
  deriving DecidableEq

/-- The per-sensor mapping inside `_transformDevice`. -/
def transformIotDevice {α : Type} (d : RawIotDevice α) : IotDeviceT α :=
  { name := d.name
    defaultTitle := d.default_title
    deviceId := d.device_id
    version := d.version
    createTime := d.createtime }

/-- `EcowittClient._transformDevice(rawDevice)`: field-for-field copy,
`iotdevice_list` defaulting to the empty list (`|| []`). -/
def transformDevice {α : Type} (raw : RawDevice α) : DeviceT α :=
  { id := raw.id
    name := raw.name
    mac := raw.mac
    imei := raw.imei
    dtype := raw.dtype
    dateZoneId := raw.date_zone_id
    createTime := raw.createtime
    longitude := raw.longitude
    latitude := raw.latitude
    stationType := raw.stationtype
    iotDevices := (raw.iotdevice_list.getD []).map transformIotDevice }

/-- The `data` payload of the device-list endpoint: `list` may be
absent. -/
structure DeviceListData (α : Type) where
  list : Option (List (RawDevice α)) := none
  deriving DecidableEq

/-- The success path of `EcowittClient.listDevices()`:
`(data.list || []).map(this._transformDevice)`. -/
def listDevicesTransform {α : Type} (data : DeviceListData α) :
    List (DeviceT α) :=
  (data.list.getD []).map transformDevice

/-! ## Supporting lemmas -/

theorem toNat_ofNat_of_valid (n : Nat) (h : n.isValidChar) :
    (Char.ofNat n).toNat = n := by
  simp [Char.ofNat, h, Char.ofNatAux, Char.toNat, UInt32.toNat, BitVec.toNat_ofNatLt]

theorem ErrorCodeMap_eq_none_of_range (code : Int) (h1 : 400 ≤ code)
    (h2 : code < 600) : ErrorCodeMap code = none := by
  have h : ∀ e ∈ ErrorCodeMapEntries, ¬((fun e : Int × String => e.1 == code) e) := by
    intro e he
    simp only [ErrorCodeMapEntries, List.mem_cons, List.not_mem_nil, or_false] at he
    rcases he with rfl|rfl|rfl|rfl|rfl|rfl|rfl|rfl|rfl|rfl|rfl|rfl|rfl|rfl <;>
      simp <;> omega
  simp [ErrorCodeMap, List.find?_eq_none.mpr h]

/-- A concrete client that always finds a device, used to instantiate the
handler theorems. -/
def stubClientOk : String → Except JsErr DeviceData :=
  fun _ => .ok (.obj ["id"])

/-! ## C1 — classification matches the table and the range fallback -/

/-- C1: for every code in the static table `classifyError` returns the
table's kind; for a code missing from the table, codes in [400, 500)
classify as client, codes in [500, 600) as server, and everything else
as unknown; the classified object carries exactly the given code and
message (so the result depends only on the `(code, message)` input). -/
theorem classifyError_table_and_ranges (code : Int) (msg : String) :
    ((classifyError code msg).code = code ∧
     (classifyError code msg).message = msg) ∧
    (∀ t, ErrorCodeMap code = some t → (classifyError code msg).etype = t) ∧
    (ErrorCodeMap code = none → 400 ≤ code → code < 500 →
      (classifyError code msg).etype = "client_error") ∧
    (ErrorCodeMap code = none → 500 ≤ code → code < 600 →
      (classifyError code msg).etype = "server_error") ∧
    (ErrorCodeMap code = none → ¬(400 ≤ code ∧ code < 500) →
      ¬(500 ≤ code ∧ code < 600) →
      (classifyError code msg).etype = "unknown_error") ∧
    ((classifyError (-1) msg).etype = "server_busy_error" ∧
     (classifyError 40000 msg).etype = "parameter_error" ∧
     (classifyError 40010 msg).etype = "authentication_error" ∧
     (classifyError 40011 msg).etype = "authentication_error" ∧
     (classifyError 40012 msg).etype = "device_error" ∧
     (classifyError 40013 msg).etype = "parameter_error" ∧
     (classifyError 40014 msg).etype = "parameter_error" ∧
     (classifyError 40015 msg).etype = "parameter_error" ∧
     (classifyError 40016 msg).etype = "parameter_error" ∧
     (classifyError 40017 msg).etype = "parameter_error" ∧
     (classifyError 40018 msg).etype = "parameter_error" ∧
     (classifyError 40019 msg).etype = "device_error" ∧
     (classifyError 40020 msg).etype = "parameter_error" ∧
     (classifyError 40021 msg).etype = "parameter_error") := by
  refine ⟨⟨rfl, rfl⟩, ?_, ?_, ?_, ?_,
    ⟨rfl, rfl, rfl, rfl, rfl, rfl, rfl, rfl, rfl, rfl, rfl, rfl, rfl, rfl⟩⟩
  · intro t h
    simp only [classifyError, h]
  · intro h h1 h2
    simp only [classifyError, h]
    rw [if_pos ⟨h1, h2⟩]
    rfl
  · intro h h1 h2
    simp only [classifyError, h]
    rw [if_neg (by omega), if_pos ⟨h1, h2⟩]
    rfl
  · intro h h1 h2
    simp only [classifyError, h]
    rw [if_neg h1, if_neg h2]
    rfl

/-- Witness for C1 at concrete codes. -/
theorem classifyError_table_and_ranges_witness :
    (classifyError 40010 "m").etype = "authentication_error" ∧
    (classifyError 418 "m").etype = "client_error" ∧
    (classifyError 503 "m").etype = "server_error" ∧
    (classifyError 7 "m").etype = "unknown_error" :=
  ⟨(classifyError_table_and_ranges 40010 "m").2.1 _ (by decide),
   (classifyError_table_and_ranges 418 "m").2.2.1 (by decide) (by decide)
     (by decide),
   (classifyError_table_and_ranges 503 "m").2.2.2.1 (by decide) (by decide)
     (by decide),
   (classifyError_table_and_ranges 7 "m").2.2.2.2.1 (by decide) (by decide)
     (by decide)⟩

/-! ## C2 — retryability rule -/

/-- C2: `isRetryableError code` is true iff code = -1, or code is in
[500, 600), or code = 429; in particular 40010 and 400 are not
retryable, while 429 is retryable despite being absent from the static
table. -/
theorem isRetryableError_iff (code : Int) :
    (isRetryableError code = true ↔
      (code = -1 ∨ (500 ≤ code ∧ code < 600) ∨ code = 429)) ∧
    isRetryableError 40010 = false ∧
    isRetryableError 400 = false ∧
    isRetryableError 429 = true ∧
    ErrorCodeMap 429 = none := by
  refine ⟨?_, by decide, by decide, by decide, by decide⟩
  simp [isRetryableError, isSystemBusyError]
  tauto

/-- Witness for C2 at concrete codes. -/
theorem isRetryableError_iff_witness :
    isRetryableError 429 = true ∧ isRetryableError 40010 = false :=
  ⟨(isRetryableError_iff 429).2.2.2.1, (isRetryableError_iff 40010).2.1⟩

/-! ## C9 — empty / missing device list and total transform -/

/-- C9: `listDevices` on a payload with an empty or absent `list` yields
the empty sequence (not an error); the device transform is total: every
optional field is copied through (absent stays absent) and an absent
`iotdevice_list` becomes the empty list. -/
theorem listDevices_empty_and_transform_total {α : Type} :
    (∀ data : DeviceListData α, data.list = none →
      listDevicesTransform data = []) ∧
    listDevicesTransform (α := α) { list := some [] } = [] ∧
    (∀ raw : RawDevice α,
      (transformDevice raw).imei = raw.imei ∧
      (transformDevice raw).longitude = raw.longitude ∧
      (transformDevice raw).latitude = raw.latitude ∧
      (raw.iotdevice_list = none → (transformDevice raw).iotDevices = [])) ∧
    transformDevice (α := α) {} =
      { id := none, name := none, mac := none, imei := none, dtype := none
        dateZoneId := none, createTime := none, longitude := none
        latitude := none, stationType := none, iotDevices := [] } := by
  refine ⟨?_, rfl, ?_, rfl⟩
  · intro data h
    simp [listDevicesTransform, h]
  · intro raw
    exact ⟨rfl, rfl, rfl, fun h => by simp [transformDevice, h]⟩

/-- Witness for C9 at a concrete sparse record. -/
theorem listDevices_empty_and_transform_total_witness :
    listDevicesTransform (α := Unit) { list := none } = [] ∧
    (transformDevice (α := Unit) { name := some () }).iotDevices = [] :=
  ⟨(listDevices_empty_and_transform_total (α := Unit)).1 { list := none } rfl,
   ((listDevices_empty_and_transform_total (α := Unit)).2.2.1
     { name := some () }).2.2.2 rfl⟩

/-! ## C10 — the two validation paths accept different inputs -/

/-- C10: the doubled-separator input "AA::BB:CC:DD:EE:FF" is rejected by
`isValidMacAddress` but accepted by the throwing validator, so
`formatMacAddress` and `compactMacAddress` both succeed on it and return
the canonical forms. -/
theorem macValidators_disagree_on_doubled_separator :
    isValidMacAddress (.str "AA::BB:CC:DD:EE:FF") = false ∧
    validateMacAddress (.str "AA::BB:CC:DD:EE:FF") = .ok () ∧
    formatMacAddress (.str "AA::BB:CC:DD:EE:FF") = .ok "AA:BB:CC:DD:EE:FF" ∧
    compactMacAddress (.str "AA::BB:CC:DD:EE:FF") = .ok "AABBCCDDEEFF" :=
  ⟨by decide, rfl, rfl, rfl⟩

/-! ## C3 — presence-only validation in getDeviceByMac -/

/-- C3 counterexample: the malformed address "AA::BB:CC:DD:EE:FF"
(doubled separator, rejected by `isValidMacAddress`) passes
`getDeviceByMac`'s validation, the upstream client IS invoked with it,
and no `parameter_error` is produced. -/
theorem getDeviceByMac_malformed_reaches_client :
    isValidMacAddress (.str "AA::BB:CC:DD:EE:FF") = false ∧
    getDeviceByMacCalls (.str "AA::BB:CC:DD:EE:FF") = ["AA::BB:CC:DD:EE:FF"] ∧
    getDeviceByMac stubClientOk (.str "AA::BB:CC:DD:EE:FF") = .ok (.obj ["id"]) :=
  ⟨by decide, rfl, rfl⟩

/-- C3 amended: `getDeviceByMac` validates only presence.  When the
address is missing, non-string or whitespace-only it fails with a
`parameter_error` and never invokes the client; every other string —
well-formed or not — is passed to the client unchanged. -/
theorem getDeviceByMac_validates_presence_only
    (client : String → Except JsErr DeviceData) (mac : JsValue) :
    (validateRequired "MAC address" mac = .ok () →
      getDeviceByMacCalls mac = [mac.asString]) ∧
    (∀ m, validateRequired "MAC address" mac = .error m →
      getDeviceByMacCalls mac = [] ∧
      getDeviceByMac client mac =
        .error (.custom (mkCustomError m "INVALID_PARAMETER" "parameter_error"))) ∧
    (∀ s, mac = .str s → jsTrim s ≠ "" → getDeviceByMacCalls mac = [s]) := by
  refine ⟨?_, ?_, ?_⟩
  · intro h
    simp [getDeviceByMacCalls, h]
  · intro m h
    exact ⟨by simp [getDeviceByMacCalls, h], by simp [getDeviceByMac, h]⟩
  · intro s hs hne
    subst hs
    have hok : validateRequired "MAC address" (.str s) = .ok () := by
      simp [validateRequired, hne]
    simp [getDeviceByMacCalls, hok, JsValue.asString]

/-- Witness for the amended C3 at concrete inputs. -/
theorem getDeviceByMac_validates_presence_only_witness :
    getDeviceByMacCalls (.str "AA::BB:CC:DD:EE:FF") = ["AA::BB:CC:DD:EE:FF"] ∧
    getDeviceByMacCalls .undef = [] ∧
    getDeviceByMac stubClientOk .undef =
      .error (.custom (mkCustomError "Missing required parameter: MAC address"
        "INVALID_PARAMETER" "parameter_error")) := by
  refine ⟨?_, ?_, ?_⟩
  · exact (getDeviceByMac_validates_presence_only stubClientOk
      (.str "AA::BB:CC:DD:EE:FF")).2.2 _ rfl (by decide)
  · exact ((getDeviceByMac_validates_presence_only stubClientOk .undef).2.1
      _ rfl).1
  · exact ((getDeviceByMac_validates_presence_only stubClientOk .undef).2.1
      _ rfl).2

/-! ## C6 — getDeviceByMac not-found / wrapping contract -/

/-- C6: with a present address, `getDeviceByMac` raises a device-not-found
error carrying the address exactly when the detail result is nullish or
an empty object; client exceptions that are `CustomError`s are re-raised
unchanged; any other exception is wrapped into a handler_error carrying
the original message. -/
theorem getDeviceByMac_notfound_and_wrapping
    (client : String → Except JsErr DeviceData) (s : String)
    (hpresent : validateRequired "MAC address" (.str s) = .ok ()) :
    (client s = .ok .nullish →
      getDeviceByMac client (.str s) =
        .error (.custom (mkDeviceNotFoundError s))) ∧
    (∀ keys, client s = .ok (.obj keys) →
      (keys.length = 0 →
        getDeviceByMac client (.str s) =
          .error (.custom (mkDeviceNotFoundError s))) ∧
      (keys.length ≠ 0 → getDeviceByMac client (.str s) = .ok (.obj keys))) ∧
    (∀ c, client s = .error (.custom c) →
      getDeviceByMac client (.str s) = .error (.custom c)) ∧
    (∀ m, client s = .error (.raw m) →
      getDeviceByMac client (.str s) =
        .error (.custom (mkHandlerError
          ("An unexpected error occurred in getDeviceByMac: " ++ m)))) ∧
    (mkDeviceNotFoundError s).identifier = some s ∧
    (mkDeviceNotFoundError s).etype = "device_error" := by
  have hs : JsValue.asString (.str s) = s := rfl
  refine ⟨?_, ?_, ?_, ?_, rfl, rfl⟩
  · intro h
    simp [getDeviceByMac, hpresent, hs, h, wrapHandler]
  · intro keys h
    constructor
    · intro hk
      simp [getDeviceByMac, hpresent, hs, h, hk, wrapHandler]
    · intro hk
      simp [getDeviceByMac, hpresent, hs, h, hk, wrapHandler]
  · intro c h
    simp [getDeviceByMac, hpresent, hs, h, wrapHandler]
  · intro m h
    simp [getDeviceByMac, hpresent, hs, h, wrapHandler]

/-- Witness for C6 at a concrete client and address. -/
theorem getDeviceByMac_notfound_and_wrapping_witness :
    getDeviceByMac stubClientOk (.str "AA:BB:CC:DD:EE:01") = .ok (.obj ["id"]) ∧
    getDeviceByMac (fun _ => .ok (.obj [])) (.str "AA:BB:CC:DD:EE:01") =
      .error (.custom (mkDeviceNotFoundError "AA:BB:CC:DD:EE:01")) := by
  refine ⟨?_, ?_⟩
  · exact ((getDeviceByMac_notfound_and_wrapping stubClientOk
      "AA:BB:CC:DD:EE:01" rfl).2.1 ["id"] rfl).2 (by decide)
  · exact ((getDeviceByMac_notfound_and_wrapping (fun _ => .ok (.obj []))
      "AA:BB:CC:DD:EE:01" rfl).2.1 [] rfl).1 rfl

/-! ## C7 — name resolution in getDeviceByName -/

theorem wrapHandler_ne_raw (fname : String) (inner : Except JsErr DeviceData)
    (m : String) : wrapHandler fname inner ≠ .error (.raw m) := by
  cases inner with
  | ok d => simp [wrapHandler]
  | error e =>
    cases e with
    | custom c => simp [wrapHandler]
    | raw r => simp [wrapHandler]

theorem getDeviceByMac_ne_raw (client : String → Except JsErr DeviceData)
    (mac : JsValue) (m : String) :
    getDeviceByMac client mac ≠ .error (.raw m) := by
  unfold getDeviceByMac
  cases h : validateRequired "MAC address" mac with
  | error e => simp
  | ok u =>
    cases u
    exact wrapHandler_ne_raw _ _ _

theorem wrapHandler_getDeviceByMac (fname : String)
    (client : String → Except JsErr DeviceData) (mac : JsValue) :
    wrapHandler fname (getDeviceByMac client mac) = getDeviceByMac client mac := by
  cases hg : getDeviceByMac client mac with
  | ok d => simp [wrapHandler]
  | error e =>
    cases e with
    | custom c => simp [wrapHandler]
    | raw r => exact absurd hg (getDeviceByMac_ne_raw client mac r)

theorem find?_first {α : Type} (p : α → Bool) :
    ∀ (l1 : List α) (r : α) (l2 : List α), (∀ x ∈ l1, p x = false) →
      p r = true → (l1 ++ r :: l2).find? p = some r := by
  intro l1
  induction l1 with
  | nil =>
    intro r l2 _ hr
    simp [List.find?_cons_of_pos, hr]
  | cons a t ih =>
    intro r l2 h hr
    have ha : p a = false := h a (by simp)
    rw [List.cons_append, List.find?_cons_of_neg _ (by simp [ha])]
    exact ih r l2 (fun x hx => h x (by simp [hx])) hr

/-- C7: with a present name, `getDeviceByName` lists the resources and
matches the lowercased resource name against the lowercased-and-trimmed
supplied name; no match raises device-not-found carrying the supplied
name; on a match it delegates to `getDeviceByMac` with the matched
resource's address (so the detail lookup is called with that address);
the first match in list order wins; and each resource carries the name
and address of its device record. -/
theorem getDeviceByName_resolution
    (devices : List DeviceRec) (client : String → Except JsErr DeviceData)
    (s : String) (hpresent : validateRequired "Device name" (.str s) = .ok ()) :
    ((handleDeviceList devices).find?
        (fun x => jsToLower x.name == jsTrim (jsToLower s)) = none →
      getDeviceByName (.ok devices) client (.str s) =
        .error (.custom (mkDeviceNotFoundError s)) ∧
      getDeviceByNameCalls (.ok devices) (.str s) = []) ∧
    (∀ r, (handleDeviceList devices).find?
        (fun x => jsToLower x.name == jsTrim (jsToLower s)) = some r →
      getDeviceByName (.ok devices) client (.str s) =
        getDeviceByMac client (.str r.mac) ∧
      getDeviceByNameCalls (.ok devices) (.str s) =
        getDeviceByMacCalls (.str r.mac)) ∧
    (∀ (l1 : List ResourceR) (r : ResourceR) (l2 : List ResourceR),
      handleDeviceList devices = l1 ++ r :: l2 →
      (∀ x ∈ l1, (jsToLower x.name == jsTrim (jsToLower s)) = false) →
      (jsToLower r.name == jsTrim (jsToLower s)) = true →
      (handleDeviceList devices).find?
        (fun x => jsToLower x.name == jsTrim (jsToLower s)) = some r) ∧
    (∀ d : DeviceRec, d ∈ devices →
      ∃ res ∈ handleDeviceList devices, res.name = d.name ∧ res.mac = d.mac) := by
  have hs : JsValue.asString (.str s) = s := rfl
  refine ⟨?_, ?_, ?_, ?_⟩
  · intro h
    constructor
    · simp [getDeviceByName, hpresent, hs, h, wrapHandler]
    · simp [getDeviceByNameCalls, hpresent, hs, h]
  · intro r h
    constructor
    · simp only [getDeviceByName, hpresent, hs, h]
      exact wrapHandler_getDeviceByMac _ client (.str r.mac)
    · simp [getDeviceByNameCalls, hpresent, hs, h]
  · intro l1 r l2 heq h1 hr
    rw [heq]
    exact find?_first _ l1 r l2 h1 hr
  · intro d hd
    refine ⟨{ uri := "ecowitt://device/" ++ removeColons d.mac
              name := d.name, mac := d.mac, dtype := d.dtype
              stationType := d.stationType, dateZoneId := d.dateZoneId
              longitude := d.longitude, latitude := d.latitude }, ?_, rfl, rfl⟩
    simp [handleDeviceList]
    exact ⟨d, hd, by simp⟩

/-- The concrete device list of end-to-end scenario 4. -/
def backyardDevices : List DeviceRec :=
  [{ name := "Backyard", mac := "11:22:33:44:55:66" }]

/-- Witness for C7: scenario 4 — getByName "backyard" against a device
named "Backyard" with mac "11:22:33:44:55:66" calls the detail lookup
with exactly that mac. -/
theorem getDeviceByName_resolution_witness :
    getDeviceByNameCalls (.ok backyardDevices) (.str "backyard") =
      ["11:22:33:44:55:66"] ∧
    getDeviceByName (.ok backyardDevices) stubClientOk (.str "backyard") =
      .ok (.obj ["id"]) := by
  have h := (getDeviceByName_resolution backyardDevices stubClientOk
    "backyard" rfl).2.1
    { uri := "ecowitt://device/112233445566", name := "Backyard"
      mac := "11:22:33:44:55:66", dtype := none, stationType := none
      dateZoneId := none, longitude := none, latitude := none } rfl
  exact ⟨h.2.trans rfl, h.1.trans rfl⟩

/-! ## C5 — non-success HTTP status handling in the two client
variants -/

/-- C5 counterexample: in the result-envelope client an HTTP 500
response yields the literal kind "http_error" with the status as code —
not the taxonomy's "server_error" classification. -/
theorem makeRequestA_http500_literal_kind :
    makeRequestA (α := Unit)
      (.response 500 "Internal Server Error"
        (.ok { code := 0, msg := "success", data := () })) =
      .failure { code := .num 500
                 message := "HTTP 500: Internal Server Error"
                 etype := "http_error" } ∧
    (classifyError 500 "HTTP 500: Internal Server Error").etype =
      "server_error" ∧
    ("http_error" : String) ≠ "server_error" :=
  ⟨rfl, rfl, by decide⟩

/-- C5 amended: on a non-success HTTP status the exception-based client
throws an `EcowittApiError` whose code is the HTTP status and whose kind
is the taxonomy classification of that status (HTTP 500 → server_error,
retryable); the result-envelope client instead returns a failure with the
status as code and the literal kind "http_error". -/
theorem makeRequest_nonOk_classification {α : Type}
    (status : Int) (statusText : String) (body : Except String (Envelope α))
    (hnotok : httpOk status = false) :
    makeRequestB (.response status statusText body) =
      .error (.api (mkEcowittApiError status ("HTTP Error: " ++ statusText))) ∧
    (mkEcowittApiError status ("HTTP Error: " ++ statusText)).etype =
      (classifyError status ("HTTP Error: " ++ statusText)).etype ∧
    (500 ≤ status → status < 600 →
      (mkEcowittApiError status ("HTTP Error: " ++ statusText)).etype =
        "server_error" ∧
      (mkEcowittApiError status ("HTTP Error: " ++ statusText)).isRetryable =
        true) ∧
    (∀ env : Envelope α, body = .ok env →
      makeRequestA (.response status statusText body) =
        .failure { code := .num status
                   message := "HTTP " ++ toString status ++ ": " ++ statusText
                   etype := "http_error" }) := by
  refine ⟨?_, rfl, ?_, ?_⟩
  · simp [makeRequestB, hnotok]
  · intro h1 h2
    have hn := ErrorCodeMap_eq_none_of_range status (by omega) h2
    constructor
    · simp only [mkEcowittApiError, hn]
      rw [if_neg (by omega), if_pos ⟨h1, h2⟩]
      rfl
    · simp [EcowittApiError.isRetryable, mkEcowittApiError]
      omega
  · intro env hb
    simp [makeRequestA, hb, hnotok]

/-- Witness for the amended C5 at HTTP 500. -/
theorem makeRequest_nonOk_classification_witness :
    makeRequestB (α := Unit)
      (.response 500 "Internal Server Error"
        (.ok { code := 0, msg := "success", data := () })) =
      .error (.api (mkEcowittApiError 500 "HTTP Error: Internal Server Error")) ∧
    (mkEcowittApiError 500 "HTTP Error: Internal Server Error").etype =
      "server_error" ∧
    (mkEcowittApiError 500 "HTTP Error: Internal Server Error").isRetryable =
      true := by
  have h := makeRequest_nonOk_classification (α := Unit) 500
    "Internal Server Error" (.ok { code := 0, msg := "success", data := () })
    rfl
  exact ⟨h.1, (h.2.2.1 (by decide) (by decide)).1,
    (h.2.2.1 (by decide) (by decide)).2⟩

/-! ## Character-level lemmas for the MAC utilities -/

theorem bool_eq_of_iff {a b : Bool} (h : a = true ↔ b = true) : a = b := by
  cases a <;> cases b <;> simp_all

theorem hexCI_not_separator {c : Char} (h : isHexDigitCI c = true) :
    isMacSeparator c = false := by
  simp only [isHexDigitCI, isUpperHexDigit, Bool.or_eq_true, Bool.and_eq_true,
    decide_eq_true_eq] at h
  simp only [isMacSeparator, isJsWhitespace, Bool.or_eq_false_iff,
    decide_eq_false_iff_not, Bool.and_eq_false_iff]
  omega

theorem upperHex_not_separator {c : Char} (h : isUpperHexDigit c = true) :
    isMacSeparator c = false :=
  hexCI_not_separator (by simp [isHexDigitCI, h])

theorem upperHex_hexCI {c : Char} (h : isUpperHexDigit c = true) :
    isHexDigitCI c = true := by
  simp [isHexDigitCI, h]

theorem upperHex_toUpper_fixed {c : Char} (h : isUpperHexDigit c = true) :
    jsToUpperChar c = c := by
  simp only [isUpperHexDigit, Bool.or_eq_true, Bool.and_eq_true,
    decide_eq_true_eq] at h
  have hc : (97 ≤ c.toNat && c.toNat ≤ 122) = false := by
    simp only [Bool.and_eq_false_iff, decide_eq_false_iff_not]
    omega
  simp [jsToUpperChar, hc]

theorem toUpper_hexCI_upper {c : Char} (h : isHexDigitCI c = true) :
    isUpperHexDigit (jsToUpperChar c) = true := by
  simp only [isHexDigitCI, isUpperHexDigit, Bool.or_eq_true, Bool.and_eq_true,
    decide_eq_true_eq] at h
  by_cases hc : (97 ≤ c.toNat && c.toNat ≤ 122) = true
  · simp only [Bool.and_eq_true, decide_eq_true_eq] at hc
    have hv : (c.toNat - 32).isValidChar := Or.inl (by omega)
    have ht := toNat_ofNat_of_valid (c.toNat - 32) hv
    simp only [jsToUpperChar, Bool.and_eq_true, decide_eq_true_eq]
    rw [if_pos hc]
    simp only [isUpperHexDigit, ht, Bool.or_eq_true, Bool.and_eq_true,
      decide_eq_true_eq]
    omega
  · have hcond : (97 ≤ c.toNat && c.toNat ≤ 122) = false :=
      Bool.eq_false_iff.mpr hc
    have hfix : jsToUpperChar c = c := by
      simp [jsToUpperChar, hcond]
    rw [hfix]
    simp only [Bool.and_eq_true, decide_eq_true_eq, not_and, not_le] at hc
    simp only [isUpperHexDigit, Bool.or_eq_true, Bool.and_eq_true,
      decide_eq_true_eq]
    omega

theorem hexCI_jsToUpper (c : Char) :
    isHexDigitCI (jsToUpperChar c) = isHexDigitCI c := by
  apply bool_eq_of_iff
  by_cases hc : (97 ≤ c.toNat && c.toNat ≤ 122) = true
  · simp only [Bool.and_eq_true, decide_eq_true_eq] at hc
    have hv : (c.toNat - 32).isValidChar := Or.inl (by omega)
    have ht := toNat_ofNat_of_valid (c.toNat - 32) hv
    have hrw : jsToUpperChar c = Char.ofNat (c.toNat - 32) := by
      simp only [jsToUpperChar, Bool.and_eq_true, decide_eq_true_eq]
      rw [if_pos hc]
    rw [hrw]
    simp only [isHexDigitCI, isUpperHexDigit, ht, Bool.or_eq_true,
      Bool.and_eq_true, decide_eq_true_eq]
    omega
  · have hcond : (97 ≤ c.toNat && c.toNat ≤ 122) = false :=
      Bool.eq_false_iff.mpr hc
    have hrw : jsToUpperChar c = c := by
      simp [jsToUpperChar, hcond]
    rw [hrw]

/-! ## List-level lemmas for the MAC utilities -/

theorem noSep_noConsec : ∀ l : List Char,
    (∀ c ∈ l, isMacSeparator c = false) →
    hasConsecutiveSeparators l = false := by
  intro l
  induction l with
  | nil => intro _; rfl
  | cons c1 t ih =>
    intro h
    cases t with
    | nil => rfl
    | cons c2 rest =>
      have h1 := h c1 (by simp)
      have hrec := ih (fun c hc => h c (by simp [hc]))
      simp [hasConsecutiveSeparators, h1, hrec]

theorem pairColon_ne_nil (x : Char) (xs : List Char) :
    pairColon (x :: xs) ≠ [] := by
  cases xs <;> simp [pairColon]

theorem cleanList_pairColon_dropLast : ∀ c : List Char, c.length % 2 = 0 →
    (∀ x ∈ c, isUpperHexDigit x = true) →
    cleanList ((pairColon c).dropLast) = c
  | [], _, _ => rfl
  | [a], h, _ => by simp at h
  | a :: b :: rest, h, hx => by
    have ha := hx a (by simp)
    have hb := hx b (by simp)
    have hna := upperHex_not_separator ha
    have hnb := upperHex_not_separator hb
    have hfa := upperHex_toUpper_fixed ha
    have hfb := upperHex_toUpper_fixed hb
    cases hr : rest with
    | nil =>
      subst hr
      simp [pairColon, List.dropLast, cleanList, hna, hnb, hfa, hfb]
    | cons r rs =>
      subst hr
      obtain ⟨q, qs, hq⟩ := List.exists_cons_of_ne_nil (pairColon_ne_nil r rs)
      have ih := cleanList_pairColon_dropLast (r :: rs)
        (by simp at h ⊢; omega)
        (fun x hxm => hx x (by simp [hxm]))
      have h1 : pairColon (a :: b :: r :: rs) =
          a :: b :: ':' :: pairColon (r :: rs) := rfl
      rw [h1, hq]
      have h2 : (a :: b :: ':' :: q :: qs).dropLast =
          a :: b :: ':' :: (q :: qs).dropLast := rfl
      rw [h2]
      have hcolon : isMacSeparator ':' = true := rfl
      have h3 : cleanList (a :: b :: ':' :: (q :: qs).dropLast) =
          a :: b :: cleanList ((q :: qs).dropLast) := by
        simp [cleanList, List.filter_cons, hna, hnb, hfa, hfb, hcolon]
      rw [h3, ← hq, ih]

theorem groupedPairs_filter (sp : Char) (hsp : isMacSeparator sp = true) :
    ∀ l : List Char, groupedPairs sp l = true →
      (∀ x ∈ l.filter (fun c => !(isMacSeparator c)), isHexDigitCI x = true) ∧
      3 * (l.filter (fun c => !(isMacSeparator c))).length = 2 * (l.length + 1)
  | [a, b], h => by
    simp only [groupedPairs, Bool.and_eq_true] at h
    obtain ⟨ha, hb⟩ := h
    have hna := hexCI_not_separator ha
    have hnb := hexCI_not_separator hb
    have hfeq : [a, b].filter (fun c => !(isMacSeparator c)) = [a, b] := by
      simp [List.filter_cons, hna, hnb]
    rw [hfeq]
    constructor
    · intro x hx
      simp at hx
      rcases hx with rfl | rfl <;> assumption
    · simp
  | a :: b :: s :: r :: rest, h => by
    simp only [groupedPairs, Bool.and_eq_true, beq_iff_eq] at h
    obtain ⟨⟨⟨ha, hb⟩, hssp⟩, hrest⟩ := h
    have hna := hexCI_not_separator ha
    have hnb := hexCI_not_separator hb
    have hseps : isMacSeparator s = true := hssp ▸ hsp
    have ih := groupedPairs_filter sp hsp (r :: rest) hrest
    have hfeq : (a :: b :: s :: r :: rest).filter (fun c => !(isMacSeparator c)) =
        a :: b :: ((r :: rest).filter (fun c => !(isMacSeparator c))) := by
      simp [List.filter_cons, hna, hnb, hseps]
    rw [hfeq]
    constructor
    · intro x hx
      simp only [List.mem_cons] at hx
      rcases hx with rfl | rfl | hx
      · exact ha
      · exact hb
      · exact ih.1 x hx
    · have h2 := ih.2
      simp only [List.length_cons] at h2 ⊢
      omega
  | [], h => by simp [groupedPairs] at h
  | [a], h => by simp [groupedPairs] at h
  | [a, b, s], h => by simp [groupedPairs] at h

theorem groupedPairs_noConsec (sp : Char) :
    ∀ l : List Char, groupedPairs sp l = true →
      hasConsecutiveSeparators l = false ∧
      (∃ c t, l = c :: t ∧ isMacSeparator c = false)
  | [a, b], h => by
    simp only [groupedPairs, Bool.and_eq_true] at h
    have hna := hexCI_not_separator h.1
    have hnb := hexCI_not_separator h.2
    exact ⟨by simp [hasConsecutiveSeparators, hna, hnb], a, [b], rfl, hna⟩
  | a :: b :: s :: r :: rest, h => by
    simp only [groupedPairs, Bool.and_eq_true, beq_iff_eq] at h
    obtain ⟨⟨⟨ha, hb⟩, hssp⟩, hrest⟩ := h
    have hna := hexCI_not_separator ha
    have hnb := hexCI_not_separator hb
    obtain ⟨hnc, c, t, hct, hcsep⟩ := groupedPairs_noConsec sp (r :: rest) hrest
    have hrc : r = c ∧ rest = t := by
      cases hct
      exact ⟨rfl, rfl⟩
    obtain ⟨rfl, rfl⟩ := hrc
    refine ⟨?_, a, _, rfl, hna⟩
    simp [hasConsecutiveSeparators, hna, hnb, hcsep] at hnc ⊢
    exact hnc
  | [], h => by simp [groupedPairs] at h
  | [a], h => by simp [groupedPairs] at h
  | [a, b, s], h => by simp [groupedPairs] at h

/-- The facts `specValidMac` gives about the cleaned character list. -/
theorem specValidMac_clean (s : String) (h : specValidMac s = true) :
    s.data ≠ [] ∧
    hasConsecutiveSeparators s.data = false ∧
    (cleanList s.data).length = 12 ∧
    (∀ x ∈ cleanList s.data, isUpperHexDigit x = true) := by
  simp only [specValidMac, Bool.or_eq_true, Bool.and_eq_true, beq_iff_eq,
    List.all_eq_true, List.any_eq_true] at h
  rcases h with ⟨hlen, hall⟩ | ⟨hlen, sp, hspmem, hgp⟩
  · have hfil : s.data.filter (fun c => !(isMacSeparator c)) = s.data :=
      List.filter_eq_self.mpr (fun c hc => by simp [hexCI_not_separator (hall c hc)])
    refine ⟨?_, ?_, ?_, ?_⟩
    · intro h0
      rw [h0] at hlen
      simp at hlen
    · exact noSep_noConsec s.data
        (fun c hc => hexCI_not_separator (hall c hc))
    · simp [cleanList, hfil, hlen]
    · intro x hx
      simp only [cleanList, hfil, List.mem_map] at hx
      obtain ⟨c, hc, rfl⟩ := hx
      exact toUpper_hexCI_upper (hall c hc)
  · have hspsep : isMacSeparator sp = true := by
      simp at hspmem
      rcases hspmem with rfl | rfl | rfl <;> rfl
    have hf := groupedPairs_filter sp hspsep s.data hgp
    have hnc := groupedPairs_noConsec sp s.data hgp
    refine ⟨?_, hnc.1, ?_, ?_⟩
    · intro h0
      rw [h0] at hlen
      simp at hlen
    · have := hf.2
      rw [hlen] at this
      simp [cleanList]
      omega
    · intro x hx
      simp only [cleanList, List.mem_map] at hx
      obtain ⟨c, hc, rfl⟩ := hx
      exact toUpper_hexCI_upper (hf.1 c hc)

/-- `validateMacAddress` accepts any nonempty string whose cleaned form
is 12 uppercase hex characters. -/
theorem validateMacAddress_ok_of_clean (s : String) (hne : s.data ≠ [])
    (hlen : (cleanList s.data).length = 12)
    (hhex : ∀ x ∈ cleanList s.data, isUpperHexDigit x = true) :
    validateMacAddress (.str s) = .ok () := by
  have hmatch : matchesHex12Upper (cleanMacAddress s) = true := by
    simp only [matchesHex12Upper, cleanMacAddress, Bool.and_eq_true,
      beq_iff_eq, List.all_eq_true]
    exact ⟨hlen, hhex⟩
  simp [validateMacAddress, List.isEmpty_iff, hne, hmatch]

/-! ## C4 — what isValidMacAddress actually accepts -/

/-- C4 counterexample: "AA:BB-CC:DD:EE:FF" mixes separator styles, so
the spec's characterization rejects it, yet `isValidMacAddress` accepts
it. -/
theorem isValidMacAddress_mixed_separator_counterexample :
    isValidMacAddress (.str "AA:BB-CC:DD:EE:FF") = true ∧
    specValidMac "AA:BB-CC:DD:EE:FF" = false :=
  ⟨by decide, by decide⟩

/-- C4 amended: `isValidMacAddress` returns false (never throwing in the
embedding, being a total function) for non-string, empty or malformed
input, and returns true exactly for nonempty strings with no two
consecutive separator characters whose separator-stripped form is
exactly 12 case-insensitive hex characters — separator styles may be
mixed and the grouping need not be in pairs; every input the spec's
consistent-separator characterization accepts is also accepted. -/
theorem isValidMacAddress_characterization (s : String) :
    (isValidMacAddress (.str s) = true ↔
      (s.data ≠ [] ∧ hasConsecutiveSeparators s.data = false ∧
       (s.data.filter fun c => !(isMacSeparator c)).length = 12 ∧
       ∀ c ∈ s.data.filter (fun c => !(isMacSeparator c)),
         isHexDigitCI c = true)) ∧
    (specValidMac s = true → isValidMacAddress (.str s) = true) ∧
    isValidMacAddress .undef = false ∧
    isValidMacAddress .nullV = false ∧
    isValidMacAddress .nonString = false ∧
    isValidMacAddress (.str "") = false := by
  refine ⟨?_, ?_, rfl, rfl, rfl, rfl⟩
  · by_cases h1 : s.data.isEmpty
    · have h0 : s.data = [] := by simpa [List.isEmpty_iff] using h1
      simp [isValidMacAddress, h1, h0]
    · have h0 : s.data ≠ [] := by simpa [List.isEmpty_iff] using h1
      by_cases h2 : hasConsecutiveSeparators s.data = true
      · simp [isValidMacAddress, h1, h2]
      · have h2f : hasConsecutiveSeparators s.data = false :=
          Bool.eq_false_iff.mpr h2
        simp only [isValidMacAddress, h1, h2f, Bool.false_eq_true, if_false]
        simp only [matchesHex12CI, cleanMacAddress, cleanList,
          Bool.and_eq_true, beq_iff_eq, List.length_map, List.all_eq_true,
          List.mem_map, forall_exists_index, and_imp]
        constructor
        · rintro ⟨hl, hall⟩
          refine ⟨h0, trivial, hl, ?_⟩
          intro c hc
          have := hall (jsToUpperChar c) c hc rfl
          rwa [hexCI_jsToUpper] at this
        · rintro ⟨-, -, hl, hall⟩
          refine ⟨hl, ?_⟩
          rintro x c hc rfl
          rw [hexCI_jsToUpper]
          exact hall c hc
  · intro h
    obtain ⟨hne, hnc, hlen, hhex⟩ := specValidMac_clean s h
    have hempty : s.data.isEmpty = false := by
      simpa [List.isEmpty_iff] using hne
    have hmatch : matchesHex12CI (cleanMacAddress s) = true := by
      simp only [matchesHex12CI, cleanMacAddress, Bool.and_eq_true,
        beq_iff_eq, List.all_eq_true]
      exact ⟨hlen, fun x hx => upperHex_hexCI (hhex x hx)⟩
    simp [isValidMacAddress, hempty, hnc, hmatch]

/-- Witness for the amended C4: a mixed-separator address satisfies the
code's characterization; a consistent-separator address is accepted via
the spec subset direction. -/
theorem isValidMacAddress_characterization_witness :
    isValidMacAddress (.str "AA:BB-CC:DD:EE:FF") = true ∧
    isValidMacAddress (.str "aa:bb:cc:dd:ee:ff") = true :=
  ⟨(isValidMacAddress_characterization "AA:BB-CC:DD:EE:FF").1.mpr (by decide),
   (isValidMacAddress_characterization "aa:bb:cc:dd:ee:ff").2.1 (by decide)⟩

/-! ## C8 — formatMacAddress and compactMacAddress are inverses up to
separator style -/

/-- C8: for every address the spec considers valid (12 hex characters,
optionally grouped in pairs with one consistent separator style),
`formatMacAddress` succeeds, and compacting the formatted string gives
the same canonical separator-free uppercase form as compacting the
original: toCompact(formatWithSeparators x) = toCompact x. -/
theorem formatCompact_inverse (s : String) (hvalid : specValidMac s = true) :
    ∃ f canon : String,
      formatMacAddress (.str s) = .ok f ∧
      compactMacAddress (.str f) = .ok canon ∧
      compactMacAddress (.str s) = .ok canon ∧
      canon = cleanMacAddress s := by
  obtain ⟨hne, -, hlen, hhex⟩ := specValidMac_clean s hvalid
  have hval := validateMacAddress_ok_of_clean s hne hlen hhex
  refine ⟨⟨(pairColon (cleanMacAddress s).data).dropLast⟩, cleanMacAddress s,
    ?_, ?_, ?_, rfl⟩
  · simp [formatMacAddress, hval]
  · have hfdata : (⟨(pairColon (cleanMacAddress s).data).dropLast⟩ : String).data =
        (pairColon (cleanList s.data)).dropLast := rfl
    have hclean_f : cleanList (⟨(pairColon (cleanMacAddress s).data).dropLast⟩ :
        String).data = cleanList s.data := by
      rw [hfdata]
      exact cleanList_pairColon_dropLast (cleanList s.data)
        (by rw [hlen]) hhex
    have hfne : (⟨(pairColon (cleanMacAddress s).data).dropLast⟩ : String).data ≠ [] := by
      intro h0
      rw [h0] at hclean_f
      rw [← hclean_f] at hlen
      simp [cleanList] at hlen
    have hval_f := validateMacAddress_ok_of_clean
      ⟨(pairColon (cleanMacAddress s).data).dropLast⟩ hfne
      (by rw [hclean_f]; exact hlen)
      (by rw [hclean_f]; exact hhex)
    simp only [compactMacAddress, hval_f]
    rw [show cleanMacAddress ⟨(pairColon (cleanMacAddress s).data).dropLast⟩ =
      ⟨cleanList (⟨(pairColon (cleanMacAddress s).data).dropLast⟩ : String).data⟩
      from rfl]
    rw [hclean_f]
    rfl
  · simp [compactMacAddress, hval, cleanMacAddress]

/-- Witness for C8 at a concrete hyphen-separated lowercase address. -/
theorem formatCompact_inverse_witness :
    specValidMac "aa-bb-cc-dd-ee-ff" = true ∧
    (∃ f canon : String,
      formatMacAddress (.str "aa-bb-cc-dd-ee-ff") = .ok f ∧
      compactMacAddress (.str f) = .ok canon ∧
      compactMacAddress (.str "aa-bb-cc-dd-ee-ff") = .ok canon ∧
      canon = cleanMacAddress "aa-bb-cc-dd-ee-ff") :=
  ⟨by decide, formatCompact_inverse "aa-bb-cc-dd-ee-ff" (by decide)⟩

end EcowittMCP
